import Mathlib

/-!
Verification of the conversational relay in `src/main.py`
(`local_llm_web_chatbot`).

The program keeps a process-wide `conversation_history` (a Python list of
dicts), persists it to `chatlog.json`, and relays chat requests to an HTTP
model backend either buffered or streamed.  We embed the Python values that
matter as a `Json` inductive (Python dicts/lists produced by `json.loads`
are `Json.obj`/`Json.arr`; Python `None` is `Json.null`), and embed the
operations of `main.py` as total Lean functions, with Python exceptions
made explicit through `Except PyErr` or an `Option PyErr` field.

The Python standard library pieces are modelled at the value level:
`json.loads` of a chunk is recorded as an oracle field `Chunk.parsed`
(`none` = `json.JSONDecodeError`), and `json.dump` followed by `json.loads`
of the same file is the identity on the JSON value, so the persisted file
is modelled as a `FileState` holding the JSON value that was written.
-/

/-- A JSON value as produced by Python `json.loads` (also standing for the
Python objects the program builds: dicts, lists, strings, numbers, bools and
`None`).  Numbers are modelled as integers; no claim depends on floats. -/
inductive Json where
  | null
  | bool (b : Bool)
  | num (n : Int)
  | str (s : String)
  | arr (elems : List Json)
  | obj (fields : List (String × Json))

/-- The Python exceptions that the relay code can raise and does not catch
at the place they occur. -/
inductive PyErr where
  | attributeError
  | typeError
  | keyError
  | jsonDecodeError
  | timeoutError
deriving DecidableEq, Repr

/-- Lookup of a key in the association list backing a `Json.obj` (a Python
dict has unique keys, so first match is the match). -/
def lookupField (k : String) : List (String × Json) → Option Json
  | [] => none
  | (k', v) :: rest => if k' = k then some v else lookupField k rest

/-- Python `d.get(k, dflt)`: only dicts have `.get`; on any other value the
attribute access raises `AttributeError`. -/
def Json.dictGet (j : Json) (k : String) (dflt : Json) : Except PyErr Json :=
  match j with
  | .obj fields => .ok ((lookupField k fields).getD dflt)
  | _ => .error .attributeError

/-- Python `d[k]` on a JSON value: dicts index by key (`KeyError` when
absent); every other JSON value raises `TypeError` when indexed by a
string. -/
def Json.index (j : Json) (k : String) : Except PyErr Json :=
  match j with
  | .obj fields =>
    match lookupField k fields with
    | some v => .ok v
    | none => .error .keyError
  | _ => .error .typeError

/-- Python truthiness of a JSON value (`if value:`). -/
def Json.truthy : Json → Bool
  | .null => false
  | .bool b => b
  | .num n => n != 0
  | .str s => s != ""
  | .arr l => !l.isEmpty
  | .obj l => !l.isEmpty

/-- Characters stripped by Python `str.strip()` (the ASCII whitespace that
can occur in the program's data). -/
def isPySpace (c : Char) : Bool :=
  c == ' ' || c == '\t' || c == '\n' || c == '\r' || c == '\x0b' || c == '\x0c'

/-- Drop leading characters satisfying `p`. -/
def dropWhileList (p : Char → Bool) : List Char → List Char
  | [] => []
  | c :: rest => if p c then dropWhileList p rest else c :: rest

/-- Python `s.strip()`: remove leading and trailing whitespace. -/
def pyStrip (s : String) : String :=
  ⟨(dropWhileList isPySpace (dropWhileList isPySpace s.data).reverse).reverse⟩

/-- The system prompt of `main.py`. -/
def SYSTEM_PROMPT : String := "You are a friendly and helpful AI assistant."

/-- Build one conversation turn, the dict
`{"role": role, "content": content}` that `main.py` appends. -/
def mkTurn (role : String) (content : Json) : Json :=
  Json.obj [("role", Json.str role), ("content", content)]

/-- `reset_history()`: the conversation after a reset,
`[{"role": "system", "content": SYSTEM_PROMPT}]`. -/
def reset_history : List Json :=
  [mkTurn "system" (Json.str SYSTEM_PROMPT)]

/-- The durable file `chatlog.json`, seen through `json.loads`:
it is missing, present but whitespace-only (`content.strip()` empty),
present but not valid JSON (`json.loads` raises), or parses to a value. -/
inductive FileState where
  | missing
  | whitespace
  | invalid
  | parsed (j : Json)

/-- `save_history_to_file()`: `json.dump` writes the history list; reading
it back parses to the same JSON value, so the resulting file state holds
`Json.arr` of the history. -/
def save_history_to_file (history : List Json) : FileState :=
  FileState.parsed (Json.arr history)

/-- Python `loaded_history[0].get("role") == "system"`: the comparison of a
JSON value against the string `"system"` is true exactly when the value is
that string. -/
def isSystemRole (j : Json) : Bool :=
  match j with
  | .str s => s == "system"
  | _ => false

/-- `load_history_from_file()`: returns the conversation the process starts
with, or the uncaught exception (`except` catches only `JSONDecodeError`
and `TypeError`, so the `AttributeError` from `.get` on a non-dict first
element escapes and startup fails). -/
def load_history_from_file (file : FileState) : Except PyErr (List Json) :=
  match file with
  | .missing => .ok reset_history
  | .whitespace => .ok reset_history
  | .invalid => .ok reset_history
  | .parsed j =>
    match j with
    | .arr l =>
      match l with
      | [] => .ok reset_history
      | first :: _ =>
        match first.dictGet "role" Json.null with
        | .error e => .error e
        | .ok r => .ok (if isSystemRole r then l else reset_history)
    | _ => .ok reset_history

/-- One chunk of a streamed backend response, after the `.decode("utf-8")`
of the loop body: `raw` is the decoded text (empty iff the byte chunk was
empty), and `parsed` records the outcome of `json.loads` on
`pyStrip raw` (`none` models `json.JSONDecodeError`).  `parsed` is only
consulted when the stripped text is non-empty, exactly as in the code. -/
structure Chunk where
  raw : String
  parsed : Option Json

/-- The state of `stream_generator` while iterating: the chunks yielded to
the caller so far, `full_reply_content`, and the uncaught exception that
aborted the generator, if any. -/
structure StreamState where
  yields : List String
  acc : String
  err : Option PyErr

/-- The history-accumulation part of one loop iteration of
`stream_generator` (everything after the `yield`): strip, parse, and on a
truthy `message.content` extend `full_reply_content`.  A caught
`JSONDecodeError` leaves the accumulator unchanged; `.get` on a non-dict
raises `AttributeError`, and `+=` of a non-string raises `TypeError`. -/
def chunkEffect (acc : String) (c : Chunk) : Except PyErr String :=
  if pyStrip c.raw = "" then .ok acc
  else
    match c.parsed with
    | none => .ok acc
    | some j =>
      match j.dictGet "message" (Json.obj []) with
      | .error e => .error e
      | .ok m =>
        match m.dictGet "content" Json.null with
        | .error e => .error e
        | .ok cv =>
          if cv.truthy then
            match cv with
            | .str s => .ok (acc ++ s)
            | _ => .error .typeError
          else .ok acc

/-- One full loop iteration of `stream_generator`.  Once an exception has
been raised the generator is dead, so the state no longer changes.  An
empty chunk is skipped entirely (`if chunk:`); a non-empty chunk is yielded
to the caller first, unconditionally, and only then parsed. -/
def step (st : StreamState) (c : Chunk) : StreamState :=
  match st.err with
  | some _ => st
  | none =>
    if c.raw = "" then st
    else
      match chunkEffect st.acc c with
      | .ok a => ⟨st.yields ++ [c.raw], a, none⟩
      | .error e => ⟨st.yields ++ [c.raw], st.acc, some e⟩

/-- `stream_generator`'s loop over the whole upstream chunk sequence,
starting from an empty accumulator. -/
def runStream (chunks : List Chunk) : StreamState :=
  chunks.foldl step ⟨[], "", none⟩

/-- Everything observable about one streamed `/api/chat` call: the chunks
forwarded to the caller, the conversation afterwards, the durable file
afterwards, and the exception that aborted the generator, if any. -/
structure StreamedResult where
  yields : List String
  history : List Json
  file : FileState
  err : Option PyErr

/-- The streamed branch of `chat`: append the user turn, drain the backend
chunk sequence through `stream_generator`, and after a normal end of the
stream commit `full_reply_content` (append the assistant turn and persist)
iff it is non-empty.  An exception aborts the generator before the commit
point, so nothing is appended or persisted. -/
def chat_streamed (history : List Json) (file : FileState) (msg : String)
    (chunks : List Chunk) : StreamedResult :=
  match (runStream chunks).err with
  | some e =>
    ⟨(runStream chunks).yields, history ++ [mkTurn "user" (Json.str msg)], file, some e⟩
  | none =>
    if (runStream chunks).acc = "" then
      ⟨(runStream chunks).yields, history ++ [mkTurn "user" (Json.str msg)], file, none⟩
    else
      ⟨(runStream chunks).yields,
       history ++ [mkTurn "user" (Json.str msg)] ++
         [mkTurn "assistant" (Json.str (runStream chunks).acc)],
       save_history_to_file (history ++ [mkTurn "user" (Json.str msg)] ++
         [mkTurn "assistant" (Json.str (runStream chunks).acc)]),
       none⟩

/-- What the buffered backend call produced: a response (status code,
`response.text`, and the outcome of `response.json()` — `none` models a
body that is not valid JSON), or an `httpx` timeout raised at the call. -/
inductive BackendOutcome where
  | response (status : Nat) (text : String) (body : Option Json)
  | timeout

/-- The JSON payload returned by the buffered branch of `chat`:
`{"response": reply}` on success, `{"error": "Error <status>: <body>"}` on
a non-200 status. -/
inductive ChatResult where
  | response (v : Json)
  | error (msg : String)

/-- Everything observable about one buffered `/api/chat` call: the
conversation afterwards, the durable file afterwards, and either the
returned payload or the uncaught exception. -/
structure BufferedResult where
  history : List Json
  file : FileState
  result : Except PyErr ChatResult

/-- The buffered branch of `chat`: append the user turn, call the backend;
on status 200 index `reply_data["message"]["content"]` (KeyError/TypeError
uncaught), append the assistant turn with the reply value verbatim,
persist, and return `{"response": reply}`; on any other status return the
`{"error": ...}` payload with nothing appended beyond the user turn and no
persist.  A timeout propagates from `client.post`. -/
def chat_buffered (history : List Json) (file : FileState) (msg : String)
    (out : BackendOutcome) : BufferedResult :=
  match out with
  | .timeout => ⟨history ++ [mkTurn "user" (Json.str msg)], file, .error .timeoutError⟩
  | .response status text body =>
    if status = 200 then
      match body with
      | none =>
        ⟨history ++ [mkTurn "user" (Json.str msg)], file, .error .jsonDecodeError⟩
      | some reply_data =>
        match reply_data.index "message" with
        | .error e => ⟨history ++ [mkTurn "user" (Json.str msg)], file, .error e⟩
        | .ok m =>
          match m.index "content" with
          | .error e => ⟨history ++ [mkTurn "user" (Json.str msg)], file, .error e⟩
          | .ok reply =>
            ⟨history ++ [mkTurn "user" (Json.str msg)] ++ [mkTurn "assistant" reply],
             save_history_to_file (history ++ [mkTurn "user" (Json.str msg)] ++
               [mkTurn "assistant" reply]),
             .ok (.response reply)⟩
    else
      ⟨history ++ [mkTurn "user" (Json.str msg)], file,
       .ok (.error ("Error " ++ toString status ++ ": " ++ text))⟩

/-- Spec-side reading of one chunk, following the spec's words: the
content contributed by a chunk that "parsed as a JSON object containing a
non-empty `message.content`", and `none` for a chunk that contributes
nothing to the accumulator. -/
def chunkContent (c : Chunk) : Option String :=
  if pyStrip c.raw = "" then none
  else
    match c.parsed with
    | some (Json.obj fs) =>
      match lookupField "message" fs with
      | some (Json.obj ms) =>
        match lookupField "content" ms with
        | some (Json.str s) => if s = "" then none else some s
        | _ => none
      | _ => none
    | _ => none

/-- Spec-side accumulator: the ordered concatenation of the `content`
fields of the chunks that parsed as JSON objects with a non-empty
`message.content`. -/
def specAccum : List Chunk → String
  | [] => ""
  | c :: rest => (chunkContent c).getD "" ++ specAccum rest

/-- The raw texts of the non-empty chunks, in arrival order (what the
generator forwards to the caller when no chunk raises). -/
def yieldsOf : List Chunk → List String
  | [] => []
  | c :: rest => (if c.raw = "" then [] else [c.raw]) ++ yieldsOf rest

/-- A chunk that the generator skips without touching the accumulator and
without raising: whitespace-only, or `json.loads` fails, or it parses to a
JSON object whose `message.content` lookup (with the code's defaults)
yields a falsy value. -/
def chunkSkipped (c : Chunk) : Bool :=
  pyStrip c.raw == "" ||
  (match c.parsed with
   | none => true
   | some (Json.obj fs) =>
     (match lookupField "message" fs with
      | none => true
      | some (Json.obj ms) =>
        (match lookupField "content" ms with
         | none => true
         | some v => !v.truthy)
      | some _ => false)
   | some _ => false)

/-- The conversation is non-empty and its first element is a dict whose
`role` is the string `"system"`. -/
def headIsSystem : List Json → Bool
  | [] => false
  | j :: _ =>
    match j with
    | .obj fs =>
      match lookupField "role" fs with
      | some (Json.str r) => r == "system"
      | _ => false
    | _ => false

/-- A well-formed Turn: a dict whose `role` is one of the three roles and
whose `content` is a string. -/
def isTurn (j : Json) : Bool :=
  match j with
  | .obj fs =>
    (match lookupField "role" fs with
     | some (Json.str r) => r == "system" || r == "user" || r == "assistant"
     | _ => false) &&
    (match lookupField "content" fs with
     | some (Json.str _) => true
     | _ => false)
  | _ => false

/-- A well-formed Turn sequence: a non-empty list of Turns whose first
element has role `"system"`. -/
def wellFormedHistory (l : List Json) : Bool :=
  l.all isTurn && headIsSystem l

/-- One state-changing operation on the process-wide conversation: a
buffered chat call, a streamed chat call, or `/api/reset`. -/
inductive Op where
  | buffered (msg : String) (out : BackendOutcome)
  | streamed (msg : String) (chunks : List Chunk)
  | resetOp

/-- Apply one operation to the pair (conversation, durable file).  Even
when a chat call raises, the process survives (the framework turns the
exception into a 500) and the history keeps the turns appended before the
raise, so the next request sees them. -/
def applyOp (s : List Json × FileState) : Op → List Json × FileState
  | .buffered msg out =>
    let r := chat_buffered s.1 s.2 msg out
    (r.history, r.file)
  | .streamed msg chunks =>
    let r := chat_streamed s.1 s.2 msg chunks
    (r.history, r.file)
  | .resetOp => (reset_history, save_history_to_file reset_history)

/-- Run a finite sequence of operations from a starting state. -/
def runOps (s : List Json × FileState) (ops : List Op) : List Json × FileState :=
  ops.foldl applyOp s

/-! ### Concrete inputs used by witnesses and counterexamples.
Raw chunk texts are the newline-terminated JSON lines of the backend
contract (literal braces written with hex escapes). -/

/-- First chunk of the spec's streamed scenario. -/
def demoHello : Chunk :=
  ⟨"\x7b\"message\": \x7b\"role\": \"assistant\", \"content\": \"Hello \"\x7d\x7d\n",
   some (Json.obj [("message",
     Json.obj [("role", Json.str "assistant"), ("content", Json.str "Hello ")])])⟩

/-- Second chunk of the spec's streamed scenario. -/
def demoWorld : Chunk :=
  ⟨"\x7b\"message\": \x7b\"role\": \"assistant\", \"content\": \"World\"\x7d\x7d\n",
   some (Json.obj [("message",
     Json.obj [("role", Json.str "assistant"), ("content", Json.str "World")])])⟩

/-- A chunk carrying content "Hi". -/
def cHiChunk : Chunk :=
  ⟨"\x7b\"message\": \x7b\"content\": \"Hi\"\x7d\x7d\n",
   some (Json.obj [("message", Json.obj [("content", Json.str "Hi")])])⟩

/-- A chunk whose text is valid JSON but not a JSON object
(`json.loads` returns Python `None`). -/
def cNullChunk : Chunk := ⟨"null", some Json.null⟩

/-- An empty byte chunk. -/
def emptyChunk : Chunk := ⟨"", none⟩

/-- A boundary-split chunk: not valid JSON, `json.loads` raises. -/
def badJsonChunk : Chunk := ⟨"\x7b\"mess", none⟩

/-- A chunk whose `message.content` exists but is the empty string. -/
def emptyContentChunk : Chunk :=
  ⟨"\x7b\"message\": \x7b\"content\": \"\"\x7d\x7d\n",
   some (Json.obj [("message", Json.obj [("content", Json.str "")])])⟩

/-- The buffered scenario's backend body. -/
def helloBody : Json :=
  Json.obj [("message",
    Json.obj [("role", Json.str "assistant"), ("content", Json.str "Hello there!")])]

/-- A 200 body whose `message.content` is present but empty. -/
def emptyContentBody : Json :=
  Json.obj [("message",
    Json.obj [("role", Json.str "assistant"), ("content", Json.str "")])]

/-! ### Helper lemmas about the stream generator -/

theorem pyStrip_empty : pyStrip "" = "" := rfl

theorem chunkEffect_ok (acc : String) (c : Chunk) (a : String)
    (h : chunkEffect acc c = Except.ok a) :
    a = acc ++ (chunkContent c).getD "" := by
  unfold chunkEffect at h
  by_cases hs : pyStrip c.raw = ""
  · rw [if_pos hs] at h
    injection h with h
    subst h
    simp [chunkContent, hs, String.append_empty]
  · rw [if_neg hs] at h
    rcases hp : c.parsed with _ | j
    · rw [hp] at h
      injection h with h
      subst h
      simp [chunkContent, hs, hp, String.append_empty]
    · rw [hp] at h
      cases j with
      | null => exact Except.noConfusion h
      | bool b => exact Except.noConfusion h
      | num n => exact Except.noConfusion h
      | str s => exact Except.noConfusion h
      | arr l => exact Except.noConfusion h
      | obj fs =>
        simp only [Json.dictGet] at h
        rcases hm : lookupField "message" fs with _ | mv
        · rw [hm] at h
          simp only [Json.dictGet, Option.getD, lookupField, Json.truthy] at h
          simp at h
          subst h
          simp [chunkContent, hs, hp, hm, String.append_empty]
        · rw [hm] at h
          cases mv with
          | null => exact Except.noConfusion h
          | bool b => exact Except.noConfusion h
          | num n => exact Except.noConfusion h
          | str s => exact Except.noConfusion h
          | arr l => exact Except.noConfusion h
          | obj ms =>
            simp only [Option.getD_some] at h
            rcases hc : lookupField "content" ms with _ | v
            · rw [hc] at h
              simp [Json.dictGet, Json.truthy] at h
              subst h
              simp [chunkContent, hs, hp, hm, hc, String.append_empty]
            · rw [hc] at h
              cases v with
              | null =>
                simp [Json.dictGet, Json.truthy] at h
                subst h
                simp [chunkContent, hs, hp, hm, hc, String.append_empty]
              | bool b =>
                cases b with
                | false =>
                  simp [Json.dictGet, Json.truthy] at h
                  subst h
                  simp [chunkContent, hs, hp, hm, hc, String.append_empty]
                | true => simp [Json.dictGet, Json.truthy] at h
              | num n =>
                by_cases hn : n = 0
                · subst hn
                  simp [Json.dictGet, Json.truthy] at h
                  subst h
                  simp [chunkContent, hs, hp, hm, hc, String.append_empty]
                · simp [Json.dictGet, Json.truthy, hn] at h
              | arr l =>
                cases l with
                | nil =>
                  simp [Json.dictGet, Json.truthy] at h
                  subst h
                  simp [chunkContent, hs, hp, hm, hc, String.append_empty]
                | cons x xs => simp [Json.dictGet, Json.truthy] at h
              | obj l =>
                cases l with
                | nil =>
                  simp [Json.dictGet, Json.truthy] at h
                  subst h
                  simp [chunkContent, hs, hp, hm, hc, String.append_empty]
                | cons x xs => simp [Json.dictGet, Json.truthy] at h
              | str s =>
                by_cases he : s = ""
                · subst he
                  simp [Json.dictGet, Json.truthy] at h
                  subst h
                  simp [chunkContent, hs, hp, hm, hc, String.append_empty]
                · simp [Json.dictGet, Json.truthy, he] at h
                  subst h
                  simp [chunkContent, hs, hp, hm, hc, he]

theorem step_dead (st : StreamState) (c : Chunk) (e : PyErr) (h : st.err = some e) :
    step st c = st := by
  unfold step
  rw [h]

theorem foldl_dead (l : List Chunk) (st : StreamState) (e : PyErr) (h : st.err = some e) :
    List.foldl step st l = st := by
  induction l with
  | nil => rfl
  | cons c rest ih =>
    rw [List.foldl_cons, step_dead st c e h]
    exact ih

theorem step_ok (st : StreamState) (c : Chunk) (h : st.err = none)
    (h2 : (step st c).err = none) :
    (step st c).acc = st.acc ++ (chunkContent c).getD "" ∧
    (step st c).yields = st.yields ++ (if c.raw = "" then [] else [c.raw]) := by
  unfold step at h2 ⊢
  rw [h] at h2 ⊢
  by_cases hr : c.raw = ""
  · rw [if_pos hr] at h2 ⊢
    have hcc : chunkContent c = none := by
      simp [chunkContent, hr, pyStrip_empty]
    simp [hcc, hr, String.append_empty]
  · rw [if_neg hr] at h2 ⊢
    rcases he : chunkEffect st.acc c with e | a2
    · rw [he] at h2
      exact Option.noConfusion h2
    · refine ⟨?_, ?_⟩
      · show a2 = st.acc ++ (chunkContent c).getD ""
        exact chunkEffect_ok st.acc c a2 he
      · show st.yields ++ [c.raw] = st.yields ++ (if c.raw = "" then [] else [c.raw])
        rw [if_neg hr]

theorem runStream_ok (l : List Chunk) : ∀ st : StreamState, st.err = none →
    (List.foldl step st l).err = none →
    (List.foldl step st l).acc = st.acc ++ specAccum l ∧
    (List.foldl step st l).yields = st.yields ++ yieldsOf l := by
  induction l with
  | nil =>
    intro st h _
    simp [specAccum, yieldsOf, String.append_empty]
  | cons c rest ih =>
    intro st h hend
    rw [List.foldl_cons] at hend ⊢
    rcases h2 : (step st c).err with _ | e
    · have hstep := step_ok st c h h2
      have hrest := ih (step st c) h2 hend
      constructor
      · rw [hrest.1, hstep.1, specAccum, String.append_assoc]
      · rw [hrest.2, hstep.2, yieldsOf, List.append_assoc]
    · exfalso
      rw [foldl_dead rest (step st c) e h2, h2] at hend
      exact Option.noConfusion hend

theorem runStream_acc (chunks : List Chunk) (h : (runStream chunks).err = none) :
    (runStream chunks).acc = specAccum chunks := by
  have h1 := runStream_ok chunks ⟨[], "", none⟩ rfl h
  rw [show runStream chunks = List.foldl step ⟨[], "", none⟩ chunks from rfl, h1.1,
    String.empty_append]

theorem runStream_yields (chunks : List Chunk) (h : (runStream chunks).err = none) :
    (runStream chunks).yields = yieldsOf chunks := by
  have h1 := runStream_ok chunks ⟨[], "", none⟩ rfl h
  rw [show runStream chunks = List.foldl step ⟨[], "", none⟩ chunks from rfl, h1.2]
  rfl

/-! ### Helper lemmas about the stream generator -/


theorem chunkSkipped_effect (c : Chunk) (acc : String) (h : chunkSkipped c = true) :
    chunkEffect acc c = Except.ok acc := by
  unfold chunkSkipped at h
  unfold chunkEffect
  by_cases hs : pyStrip c.raw = ""
  · rw [if_pos hs]
  · rw [if_neg hs]
    have hs' : (pyStrip c.raw == "") = false := by simp [hs]
    rw [hs'] at h
    simp only [Bool.false_or] at h
    rcases hp : c.parsed with _ | j
    · rfl
    · rw [hp] at h
      cases j with
      | null => exact Bool.noConfusion h
      | bool b => exact Bool.noConfusion h
      | num n => exact Bool.noConfusion h
      | str s => exact Bool.noConfusion h
      | arr l => exact Bool.noConfusion h
      | obj fs =>
        have h1 : (match lookupField "message" fs with
            | none => true
            | some (Json.obj ms) =>
              match lookupField "content" ms with
              | none => true
              | some v => !v.truthy
            | some _ => false) = true := h
        simp only [Json.dictGet]
        rcases hm : lookupField "message" fs with _ | mv
        · simp [Json.dictGet, lookupField, Json.truthy]
        · rw [hm] at h1
          cases mv with
          | null => exact Bool.noConfusion h1
          | bool b => exact Bool.noConfusion h1
          | num n => exact Bool.noConfusion h1
          | str s => exact Bool.noConfusion h1
          | arr l => exact Bool.noConfusion h1
          | obj ms =>
            have h2 : (match lookupField "content" ms with
                | none => true
                | some v => !v.truthy) = true := h1
            simp only [Option.getD_some]
            rcases hc : lookupField "content" ms with _ | v
            · simp [Json.dictGet, lookupField, Json.truthy]
            · rw [hc] at h2
              have h3 : (!v.truthy) = true := h2
              simp only [Bool.not_eq_true'] at h3
              simp [Json.dictGet, h3]

theorem step_of_skipped (st : StreamState) (c : Chunk) (h1 : st.err = none)
    (h2 : chunkSkipped c = true) :
    (step st c).err = none ∧ (step st c).acc = st.acc ∧
    (step st c).yields = st.yields ++ (if c.raw = "" then [] else [c.raw]) := by
  unfold step
  rw [h1]
  by_cases hr : c.raw = ""
  · rw [if_pos hr, if_pos hr]
    exact ⟨h1, rfl, by simp⟩
  · rw [if_neg hr, if_neg hr]
    rw [chunkSkipped_effect c st.acc h2]
    exact ⟨rfl, rfl, rfl⟩

theorem yieldsOf_eq_filter (l : List Chunk) :
    yieldsOf l = (l.filter (fun k => k.raw != "")).map Chunk.raw := by
  induction l with
  | nil => rfl
  | cons c rest ih =>
    by_cases hr : c.raw = ""
    · simp [yieldsOf, List.filter_cons, hr, ih]
    · simp [yieldsOf, List.filter_cons, hr, ih]

theorem chat_buffered_bad_status (history : List Json) (file : FileState) (msg : String)
    (status : Nat) (text : String) (body : Option Json) (h : status ≠ 200) :
    chat_buffered history file msg (.response status text body) =
      ⟨history ++ [mkTurn "user" (Json.str msg)], file,
       .ok (.error ("Error " ++ toString status ++ ": " ++ text))⟩ := by
  simp only [chat_buffered]
  rw [if_neg h]

theorem chat_buffered_history (history : List Json) (file : FileState) (msg : String)
    (out : BackendOutcome) :
    (chat_buffered history file msg out).history = history ++ [mkTurn "user" (Json.str msg)] ∨
    ∃ r, (chat_buffered history file msg out).history =
      history ++ [mkTurn "user" (Json.str msg)] ++ [mkTurn "assistant" r] := by
  cases out with
  | timeout => exact Or.inl rfl
  | response status text body =>
    simp only [chat_buffered]
    by_cases hs : status = 200
    · rw [if_pos hs]
      cases body with
      | none => exact Or.inl rfl
      | some reply_data =>
        dsimp only
        rcases reply_data.index "message" with e | m
        · exact Or.inl rfl
        · dsimp only
          rcases m.index "content" with e | reply
          · exact Or.inl rfl
          · exact Or.inr ⟨reply, rfl⟩
    · rw [if_neg hs]
      exact Or.inl rfl

theorem chat_streamed_history (history : List Json) (file : FileState) (msg : String)
    (chunks : List Chunk) :
    (chat_streamed history file msg chunks).history =
      history ++ [mkTurn "user" (Json.str msg)] ∨
    (chat_streamed history file msg chunks).history =
      history ++ [mkTurn "user" (Json.str msg)] ++
        [mkTurn "assistant" (Json.str (runStream chunks).acc)] := by
  unfold chat_streamed
  rcases (runStream chunks).err with _ | e
  · by_cases ha : (runStream chunks).acc = ""
    · rw [if_pos ha]
      exact Or.inl rfl
    · rw [if_neg ha]
      exact Or.inr rfl
  · exact Or.inl rfl

theorem chat_streamed_acc_empty (history : List Json) (file : FileState) (msg : String)
    (chunks : List Chunk) (h : (runStream chunks).acc = "") :
    (chat_streamed history file msg chunks).history =
      history ++ [mkTurn "user" (Json.str msg)] ∧
    (chat_streamed history file msg chunks).file = file := by
  unfold chat_streamed
  rcases (runStream chunks).err with _ | e
  · rw [if_pos h]
    exact ⟨rfl, rfl⟩
  · exact ⟨rfl, rfl⟩

theorem headIsSystem_append (h : List Json) (l : List Json) (hh : headIsSystem h = true) :
    headIsSystem (h ++ l) = true := by
  cases h with
  | nil => exact Bool.noConfusion hh
  | cons j t => exact hh

theorem reset_history_head : reset_history ≠ [] ∧ headIsSystem reset_history = true := by
  refine ⟨List.cons_ne_nil _ _, ?_⟩
  rfl

theorem load_head (file : FileState) (h0 : List Json)
    (h : load_history_from_file file = Except.ok h0) :
    h0 ≠ [] ∧ headIsSystem h0 = true := by
  cases file with
  | missing =>
    injection h with h
    subst h
    exact reset_history_head
  | whitespace =>
    injection h with h
    subst h
    exact reset_history_head
  | invalid =>
    injection h with h
    subst h
    exact reset_history_head
  | parsed j =>
    cases j with
    | null => injection h with h; subst h; exact reset_history_head
    | bool b => injection h with h; subst h; exact reset_history_head
    | num n => injection h with h; subst h; exact reset_history_head
    | str s => injection h with h; subst h; exact reset_history_head
    | obj fs => injection h with h; subst h; exact reset_history_head
    | arr l =>
      cases l with
      | nil => injection h with h; subst h; exact reset_history_head
      | cons first rest =>
        unfold load_history_from_file at h
        cases first with
        | null => exact Except.noConfusion h
        | bool b => exact Except.noConfusion h
        | num n => exact Except.noConfusion h
        | str s => exact Except.noConfusion h
        | arr l2 => exact Except.noConfusion h
        | obj fs =>
          have h1 : Except.ok (ε := PyErr)
              (if isSystemRole ((lookupField "role" fs).getD Json.null)
               then Json.obj fs :: rest else reset_history) = Except.ok h0 := h
          rcases hr : lookupField "role" fs with _ | v
        
          · rw [hr] at h1
            simp only [Option.getD_none, isSystemRole] at h1
            injection h1 with h1
            subst h1
            exact reset_history_head
          · rw [hr] at h1
            simp only [Option.getD_some] at h1
            cases v with
            | str r =>
              by_cases hsys : r = "system"
              · subst hsys
                rw [if_pos (show isSystemRole (Json.str "system") = true from rfl)] at h1
                injection h1 with h1
                subst h1
                refine ⟨List.cons_ne_nil _ _, ?_⟩
                show (match lookupField "role" fs with
                  | some (Json.str r) => r == "system"
                  | _ => false) = true
                rw [hr]
                rfl
              · have hfalse : isSystemRole (Json.str r) = false := by
                  simp [isSystemRole, hsys]
                simp only [hfalse, if_false] at h1
                injection h1 with h1
                subst h1
                exact reset_history_head
            | null =>
              simp only [isSystemRole, if_false] at h1
              injection h1 with h1
              subst h1
              exact reset_history_head
            | bool b =>
              simp only [isSystemRole, if_false] at h1
              injection h1 with h1
              subst h1
              exact reset_history_head
            | num n =>
              simp only [isSystemRole, if_false] at h1
              injection h1 with h1
              subst h1
              exact reset_history_head
            | arr l2 =>
              simp only [isSystemRole, if_false] at h1
              injection h1 with h1
              subst h1
              exact reset_history_head
            | obj fs2 =>
              simp only [isSystemRole, if_false] at h1
              injection h1 with h1
              subst h1
              exact reset_history_head

theorem applyOp_shape (s : List Json × FileState) (op : Op) :
    (applyOp s op).1 = reset_history ∨ ∃ l, (applyOp s op).1 = s.1 ++ l := by
  cases op with
  | resetOp => exact Or.inl rfl
  | buffered msg out =>
    rcases chat_buffered_history s.1 s.2 msg out with h | ⟨r, h⟩
    · exact Or.inr ⟨[mkTurn "user" (Json.str msg)], h⟩
    · refine Or.inr ⟨[mkTurn "user" (Json.str msg), mkTurn "assistant" r], ?_⟩
      show (chat_buffered s.1 s.2 msg out).history = _
      rw [h, List.append_assoc]
      rfl
  | streamed msg chunks =>
    rcases chat_streamed_history s.1 s.2 msg chunks with h | h
    · exact Or.inr ⟨[mkTurn "user" (Json.str msg)], h⟩
    · refine Or.inr ⟨[mkTurn "user" (Json.str msg),
        mkTurn "assistant" (Json.str (runStream chunks).acc)], ?_⟩
      show (chat_streamed s.1 s.2 msg chunks).history = _
      rw [h, List.append_assoc]
      rfl

theorem runOps_head (ops : List Op) : ∀ s : List Json × FileState,
    s.1 ≠ [] → headIsSystem s.1 = true →
    (runOps s ops).1 ≠ [] ∧ headIsSystem (runOps s ops).1 = true := by
  induction ops with
  | nil => exact fun s h1 h2 => ⟨h1, h2⟩
  | cons op rest ih =>
    intro s h1 h2
    have hs : (applyOp s op).1 ≠ [] ∧ headIsSystem (applyOp s op).1 = true := by
      rcases applyOp_shape s op with hr | ⟨l, hl⟩
      · rw [hr]
        exact reset_history_head
      · rw [hl]
        constructor
        · simp only [ne_eq, List.append_eq_nil]
          intro hcon
          exact h1 hcon.1
        · exact headIsSystem_append s.1 l h2
    exact ih (applyOp s op) hs.1 hs.2

/-- Claim C1 (amended: provided no chunk raises an uncaught exception in
the generator): when the upstream chunk sequence ends, the accumulator
equals the ordered concatenation of the `message.content` fields of
exactly those chunks that parsed as JSON objects containing a non-empty
`message.content`; if this accumulator is non-empty, exactly one assistant
Turn with that content is appended to the conversation and the history is
persisted; if it is empty, no assistant Turn is appended and no persist
occurs. -/
theorem stream_reassembly_commit (history : List Json) (file : FileState)
    (msg : String) (chunks : List Chunk) (hok : (runStream chunks).err = none) :
    (runStream chunks).acc = specAccum chunks ∧
    (specAccum chunks ≠ "" →
      chat_streamed history file msg chunks =
        ⟨yieldsOf chunks,
         history ++ [mkTurn "user" (Json.str msg)] ++
           [mkTurn "assistant" (Json.str (specAccum chunks))],
         save_history_to_file (history ++ [mkTurn "user" (Json.str msg)] ++
           [mkTurn "assistant" (Json.str (specAccum chunks))]),
         none⟩) ∧
    (specAccum chunks = "" →
      chat_streamed history file msg chunks =
        ⟨yieldsOf chunks, history ++ [mkTurn "user" (Json.str msg)], file, none⟩) := by
  have hacc := runStream_acc chunks hok
  have hy := runStream_yields chunks hok
  refine ⟨hacc, ?_, ?_⟩
  · intro hne
    have hne' : ¬ (runStream chunks).acc = "" := by
      rw [hacc]
      exact hne
    simp only [chat_streamed, hok]
    rw [if_neg hne', hacc, hy]
  · intro hz
    have hz' : (runStream chunks).acc = "" := by
      rw [hacc]
      exact hz
    simp only [chat_streamed, hok]
    rw [if_pos hz', hy]

/-- Witness for C1: the spec's streamed scenario commits "Hello World" as
the single appended assistant turn. -/
theorem stream_reassembly_commit_witness :
    (runStream [demoHello, demoWorld]).err = none ∧
    specAccum [demoHello, demoWorld] = "Hello World" ∧
    (chat_streamed reset_history FileState.missing "Hi stream"
        [demoHello, demoWorld]).history =
      reset_history ++ [mkTurn "user" (Json.str "Hi stream")] ++
        [mkTurn "assistant" (Json.str "Hello World")] ∧
    (chat_streamed reset_history FileState.missing "Hi stream"
        [demoHello, demoWorld]).history.length = 3 := by
  have h := stream_reassembly_commit reset_history FileState.missing "Hi stream"
    [demoHello, demoWorld] rfl
  have h2 := h.2.1 (by decide)
  refine ⟨rfl, rfl, ?_, ?_⟩
  · rw [h2]
    rfl
  · rw [h2]
    rfl

/-- Counterexample to C1 as stated: after a chunk with content "Hi", a
chunk that parses to JSON `null` raises an uncaught `AttributeError`, so
although the claim-side accumulator "Hi" is non-empty, no assistant Turn
is appended and nothing is persisted. -/
theorem stream_reassembly_commit_counterexample :
    specAccum [cHiChunk, cNullChunk] = "Hi" ∧
    (runStream [cHiChunk, cNullChunk]).err = some PyErr.attributeError ∧
    (chat_streamed reset_history FileState.missing "Q" [cHiChunk, cNullChunk]).history =
      reset_history ++ [mkTurn "user" (Json.str "Q")] ∧
    (chat_streamed reset_history FileState.missing "Q" [cHiChunk, cNullChunk]).file =
      FileState.missing :=
  ⟨rfl, rfl, rfl, rfl⟩

/-- Claim C2 (amended: empty byte chunks are dropped, and the guarantee is
about runs in which no chunk raises): every non-empty chunk is forwarded
raw, unmodified and unconditionally — before and independently of its own
parse outcome — and when the generator survives the whole sequence the
caller-visible stream is exactly the in-order sequence of the non-empty
chunks. -/
theorem stream_forwarding (chunks : List Chunk) (st : StreamState) (c : Chunk)
    (hok : (runStream chunks).err = none) (h1 : st.err = none) (h2 : c.raw ≠ "") :
    (runStream chunks).yields =
      (chunks.filter (fun k => k.raw != "")).map Chunk.raw ∧
    (step st c).yields = st.yields ++ [c.raw] := by
  constructor
  · rw [runStream_yields chunks hok, yieldsOf_eq_filter]
  · unfold step
    rw [h1]
    rw [if_neg h2]
    rcases chunkEffect st.acc c with e | a2
    · rfl
    · rfl

/-- Witness for C2 at the spec's streamed scenario. -/
theorem stream_forwarding_witness :
    (runStream [demoHello, demoWorld]).err = none ∧ demoHello.raw ≠ "" ∧
    (runStream [demoHello, demoWorld]).yields = [demoHello.raw, demoWorld.raw] ∧
    (step ⟨[], "", none⟩ demoHello).yields = [demoHello.raw] := by
  have h := stream_forwarding [demoHello, demoWorld] ⟨[], "", none⟩ demoHello rfl rfl
    (by decide)
  refine ⟨rfl, by decide, ?_, ?_⟩
  · rw [h.1]
    rfl
  · rw [h.2]
    rfl

/-- Counterexample to C2 as stated: an empty byte chunk is received but
never forwarded, so the caller-visible stream is not the sequence of all
chunks. -/
theorem stream_forwarding_counterexample :
    (runStream [emptyChunk]).yields = [] ∧
    List.map Chunk.raw [emptyChunk] = [""] :=
  ⟨rfl, rfl⟩

/-- Claim C3 (amended: the chunks that are skipped with the relay
continuing are those whose stripped text is empty, fails JSON decoding, or
parses to a JSON object whose `message.content` lookup is falsy; a chunk
that parses to non-object JSON — or to an object whose `message` is not an
object, or with a truthy non-string content — instead raises and aborts
the relay): a skipped chunk leaves the accumulator unchanged, is still
forwarded, and leaves the generator alive for subsequent chunks. -/
theorem malformed_chunk_skipped (st : StreamState) (c : Chunk)
    (h1 : st.err = none) (h2 : chunkSkipped c = true) :
    (step st c).err = none ∧ (step st c).acc = st.acc ∧
    (step st c).yields = st.yields ++ (if c.raw = "" then [] else [c.raw]) :=
  step_of_skipped st c h1 h2

/-- Witness for C3: a boundary-split chunk (invalid JSON) is skipped and
the relay continues. -/
theorem malformed_chunk_skipped_witness :
    chunkSkipped badJsonChunk = true ∧
    (step ⟨[], "", none⟩ badJsonChunk).err = none ∧
    (step ⟨[], "", none⟩ badJsonChunk).acc = "" ∧
    (step ⟨[], "", none⟩ badJsonChunk).yields = [badJsonChunk.raw] := by
  have h := malformed_chunk_skipped ⟨[], "", none⟩ badJsonChunk rfl (by decide)
  refine ⟨by decide, h.1, h.2.1, ?_⟩
  rw [h.2.2]
  rfl

/-- Counterexample to C3 as stated: the chunk "null" fails to parse as a
JSON object, yet it is not skipped — it raises `AttributeError`, aborting
the relay, and the following chunk is never forwarded. -/
theorem malformed_chunk_skipped_counterexample :
    (runStream [cNullChunk, cHiChunk]).err = some PyErr.attributeError ∧
    (runStream [cNullChunk, cHiChunk]).yields = [cNullChunk.raw] :=
  ⟨rfl, rfl⟩

/-- Claim C4: in buffered mode a non-success backend status yields the
structured payload (not a thrown fault), appends nothing beyond the user
turn, and does not persist. -/
theorem buffered_bad_status_payload (history : List Json) (file : FileState)
    (msg : String) (status : Nat) (text : String) (body : Option Json)
    (h : status ≠ 200) :
    chat_buffered history file msg (.response status text body) =
      ⟨history ++ [mkTurn "user" (Json.str msg)], file,
       .ok (.error ("Error " ++ toString status ++ ": " ++ text))⟩ :=
  chat_buffered_bad_status history file msg status text body h

/-- Witness for C4: status 500 with body "oops" from the initial state. -/
theorem buffered_bad_status_payload_witness :
    (chat_buffered reset_history FileState.missing "Hi"
        (.response 500 "oops" none)).result =
      Except.ok (ChatResult.error "Error 500: oops") ∧
    (chat_buffered reset_history FileState.missing "Hi"
        (.response 500 "oops" none)).history.length = 2 ∧
    (chat_buffered reset_history FileState.missing "Hi"
        (.response 500 "oops" none)).file = FileState.missing := by
  have h := buffered_bad_status_payload reset_history FileState.missing "Hi" 500 "oops"
    none (by decide)
  refine ⟨?_, ?_, ?_⟩ <;> rw [h] <;> rfl

/-- Claim C5 (amended: only a non-success status is recovered and returned
as data; a request timeout propagates as an uncaught TimeoutException, and
a status-200 body whose JSON object lacks the `message` field raises an
uncaught KeyError). -/
theorem buffered_failure_propagation (history : List Json) (file : FileState)
    (msg : String) (status : Nat) (text : String) (body : Option Json)
    (fs : List (String × Json)) (hstatus : status ≠ 200)
    (hmsg : lookupField "message" fs = none) :
    (chat_buffered history file msg .timeout).result =
      Except.error PyErr.timeoutError ∧
    (chat_buffered history file msg (.response status text body)).result =
      Except.ok (ChatResult.error ("Error " ++ toString status ++ ": " ++ text)) ∧
    (chat_buffered history file msg (.response 200 text (some (Json.obj fs)))).result =
      Except.error PyErr.keyError := by
  refine ⟨rfl, ?_, ?_⟩
  · rw [chat_buffered_bad_status history file msg status text body hstatus]
  · simp [chat_buffered, Json.index, hmsg]

/-- Witness for C5's amended statement. -/
theorem buffered_failure_propagation_witness :
    (chat_buffered reset_history FileState.missing "m"
        (.response 500 "oops" none)).result =
      Except.ok (ChatResult.error "Error 500: oops") ∧
    (chat_buffered reset_history FileState.missing "m"
        (.response 200 "oops" (some (Json.obj [])))).result =
      Except.error PyErr.keyError := by
  have h := buffered_failure_propagation reset_history FileState.missing "m" 500 "oops"
    none [] (by decide) rfl
  refine ⟨?_, h.2.2⟩
  rw [h.2.1]
  rfl

/-- Counterexample to C5 as stated: a 200 response whose body lacks
`message.content`, and a timeout, both surface as uncaught faults rather
than as data. -/
theorem buffered_failure_propagation_counterexample :
    (chat_buffered reset_history FileState.missing "Hi"
        (.response 200 "" (some (Json.obj [])))).result =
      Except.error PyErr.keyError ∧
    (chat_buffered reset_history FileState.missing "Hi" BackendOutcome.timeout).result =
      Except.error PyErr.timeoutError :=
  ⟨rfl, rfl⟩

/-- Claim C6: evaluation of `load_history_from_file` showing the crash on
a list whose first element is not a dict (file content `[5]`), alongside
the recovered malformed cases. -/
theorem restore_crash_on_nondict_first :
    load_history_from_file (FileState.parsed (Json.arr [Json.num 5])) =
      Except.error PyErr.attributeError ∧
    load_history_from_file FileState.missing = Except.ok reset_history ∧
    load_history_from_file FileState.whitespace = Except.ok reset_history ∧
    load_history_from_file FileState.invalid = Except.ok reset_history ∧
    load_history_from_file (FileState.parsed (Json.num 7)) = Except.ok reset_history ∧
    load_history_from_file (FileState.parsed (Json.arr [])) = Except.ok reset_history ∧
    load_history_from_file
        (FileState.parsed (Json.arr [mkTurn "user" (Json.str "x")])) =
      Except.ok reset_history :=
  ⟨rfl, rfl, rfl, rfl, rfl, rfl, rfl⟩

/-- Claim C7: the buffered scenario: 200 with body
message.content "Hello there!" commits the assistant turn, persists, and
returns the reply; history length 3 with the third entry the assistant
turn. -/
theorem buffered_success_scenario (file : FileState) :
    chat_buffered reset_history file "Hi" (.response 200 "" (some helloBody)) =
      ⟨reset_history ++ [mkTurn "user" (Json.str "Hi")] ++
         [mkTurn "assistant" (Json.str "Hello there!")],
       save_history_to_file (reset_history ++ [mkTurn "user" (Json.str "Hi")] ++
         [mkTurn "assistant" (Json.str "Hello there!")]),
       Except.ok (ChatResult.response (Json.str "Hello there!"))⟩ ∧
    (chat_buffered reset_history file "Hi"
        (.response 200 "" (some helloBody))).history.length = 3 ∧
    (chat_buffered reset_history file "Hi"
        (.response 200 "" (some helloBody))).history.get? 2 =
      some (mkTurn "assistant" (Json.str "Hello there!")) :=
  ⟨rfl, rfl, rfl⟩

/-- Claim C8: from any state the process can start in, any finite sequence
of chat operations and resets leaves the conversation non-empty with a
system-role first element. -/
theorem conversation_system_first (file : FileState) (h0 : List Json) (ops : List Op)
    (hload : load_history_from_file file = Except.ok h0) :
    (runOps (h0, file) ops).1 ≠ [] ∧
    headIsSystem (runOps (h0, file) ops).1 = true := by
  have h := load_head file h0 hload
  exact runOps_head ops (h0, file) h.1 h.2

/-- Witness for C8: fresh start, then a successful buffered chat followed
by a reset. -/
theorem conversation_system_first_witness :
    load_history_from_file FileState.missing = Except.ok reset_history ∧
    (runOps (reset_history, FileState.missing)
        [Op.buffered "Hi" (BackendOutcome.response 200 "" (some helloBody)),
         Op.resetOp]).1 ≠ [] ∧
    headIsSystem (runOps (reset_history, FileState.missing)
        [Op.buffered "Hi" (BackendOutcome.response 200 "" (some helloBody)),
         Op.resetOp]).1 = true := by
  have h := conversation_system_first FileState.missing reset_history
    [Op.buffered "Hi" (BackendOutcome.response 200 "" (some helloBody)), Op.resetOp] rfl
  exact ⟨rfl, h.1, h.2⟩

/-- Claim C9: persisting a well-formed Turn sequence and restoring it
reproduces an equal sequence. -/
theorem persist_restore_round_trip (l : List Json) (h : wellFormedHistory l = true) :
    load_history_from_file (save_history_to_file l) = Except.ok l := by
  have hh : headIsSystem l = true := ((Bool.and_eq_true _ _).mp h).2
  cases l with
  | nil => exact Bool.noConfusion hh
  | cons first rest =>
    cases first with
    | null => exact Bool.noConfusion hh
    | bool b => exact Bool.noConfusion hh
    | num n => exact Bool.noConfusion hh
    | str s => exact Bool.noConfusion hh
    | arr l2 => exact Bool.noConfusion hh
    | obj fs =>
      have hh3 : (match lookupField "role" fs with
          | some (Json.str r) => r == "system"
          | _ => false) = true := hh
      rcases hr : lookupField "role" fs with _ | v
      · rw [hr] at hh3
        exact Bool.noConfusion hh3
      · rw [hr] at hh3
        cases v with
        | str r =>
          have hr2 : r = "system" := by
            have hb : (r == "system") = true := hh3
            simpa using hb
          subst hr2
          show Except.ok (ε := PyErr)
            (if isSystemRole ((lookupField "role" fs).getD Json.null)
             then Json.obj fs :: rest else reset_history) =
            Except.ok (Json.obj fs :: rest)
          rw [hr]
          rfl
        | null => exact Bool.noConfusion hh3
        | bool b => exact Bool.noConfusion hh3
        | num n => exact Bool.noConfusion hh3
        | arr l2 => exact Bool.noConfusion hh3
        | obj fs2 => exact Bool.noConfusion hh3

/-- Witness for C9 at the initial conversation. -/
theorem persist_restore_round_trip_witness :
    wellFormedHistory reset_history = true ∧
    load_history_from_file (save_history_to_file reset_history) =
      Except.ok reset_history := by
  refine ⟨by decide, ?_⟩
  exact persist_restore_round_trip reset_history (by decide)

/-- Claim C10: a 200 buffered reply whose `message.content` is present but
empty is still committed (assistant turn with empty content appended, and
persisted), while in the streamed path an empty content fragment is never
accumulated and an empty reconstruction commits nothing. -/
theorem empty_content_committed_buffered_only (history : List Json) (file : FileState)
    (msg text : String) (reply_data m : Json) (st : StreamState) (c : Chunk)
    (chunks : List Chunk) (fs ms : List (String × Json))
    (hm : reply_data.index "message" = Except.ok m)
    (hcont : m.index "content" = Except.ok (Json.str ""))
    (hst : st.err = none)
    (hcp : c.parsed = some (Json.obj fs))
    (hcm : lookupField "message" fs = some (Json.obj ms))
    (hcc : lookupField "content" ms = some (Json.str ""))
    (hacc : (runStream chunks).acc = "") :
    chat_buffered history file msg (.response 200 text (some reply_data)) =
      ⟨history ++ [mkTurn "user" (Json.str msg)] ++ [mkTurn "assistant" (Json.str "")],
       save_history_to_file (history ++ [mkTurn "user" (Json.str msg)] ++
         [mkTurn "assistant" (Json.str "")]),
       Except.ok (ChatResult.response (Json.str ""))⟩ ∧
    (step st c).acc = st.acc ∧ (step st c).err = none ∧
    (chat_streamed history file msg chunks).history =
      history ++ [mkTurn "user" (Json.str msg)] ∧
    (chat_streamed history file msg chunks).file = file := by
  have hskip : chunkSkipped c = true := by
    simp [chunkSkipped, hcp, hcm, hcc, Json.truthy]
  refine ⟨?_, (step_of_skipped st c hst hskip).2.1, (step_of_skipped st c hst hskip).1,
    (chat_streamed_acc_empty history file msg chunks hacc).1,
    (chat_streamed_acc_empty history file msg chunks hacc).2⟩
  simp [chat_buffered, hm, hcont]

/-- Witness for C10 at concrete empty-content inputs. -/
theorem empty_content_committed_buffered_only_witness :
    (chat_buffered reset_history FileState.missing "Hi"
        (.response 200 "" (some emptyContentBody))).history =
      reset_history ++ [mkTurn "user" (Json.str "Hi")] ++
        [mkTurn "assistant" (Json.str "")] ∧
    (chat_buffered reset_history FileState.missing "Hi"
        (.response 200 "" (some emptyContentBody))).file =
      save_history_to_file (reset_history ++ [mkTurn "user" (Json.str "Hi")] ++
        [mkTurn "assistant" (Json.str "")]) ∧
    (step ⟨[], "", none⟩ emptyContentChunk).acc = "" ∧
    (chat_streamed reset_history FileState.missing "Hi" [emptyContentChunk]).history =
      reset_history ++ [mkTurn "user" (Json.str "Hi")] := by
  have h := empty_content_committed_buffered_only reset_history FileState.missing "Hi" ""
    emptyContentBody (Json.obj [("role", Json.str "assistant"), ("content", Json.str "")])
    ⟨[], "", none⟩ emptyContentChunk [emptyContentChunk]
    [("message", Json.obj [("content", Json.str "")])] [("content", Json.str "")]
    rfl rfl rfl rfl rfl rfl rfl
  refine ⟨?_, ?_, h.2.1, h.2.2.2.1⟩
  · rw [h.1]
  · rw [h.1]
